import Mathlib

/-!
Shallow embedding of `src/metrics/peekhandler.go` (package `metrics`):
the transport-channel peek handler (`channelPeekHandler`) and the
session (xgress) peek handler (`xgressPeekHandler`), together with the
metric-handle types they consume from the metrics registry.

External handle types (`Meter`, `Histogram`, `IntervalCounter`) are
modelled as explicit state: a meter keeps its accumulated total, a
histogram its list of recorded sizes, an interval counter its list of
keyed usage records.  Each handle additionally records its lifecycle
history (`disposeCount`, and whether it was ever updated after having
been disposed), so that disposal claims can be stated about traces.
The global logger is modelled as an `errorLog` field on the channel
handler.  Timestamps (`time.Now()`) are passed in as explicit `now`
arguments.
-/

namespace PeekMetrics

/-- External `metrics.Meter` handle: `Mark` accumulates a total and a mark
count.  `disposeCount` counts `Dispose` calls; `markedAfterDispose` records
whether any `Mark` happened after the first disposal. -/
structure Meter where
  name : String
  total : Int := 0
  markCount : Nat := 0
  disposeCount : Nat := 0
  markedAfterDispose : Bool := false
deriving Repr, DecidableEq

def Meter.Mark (m : Meter) (n : Int) : Meter :=
  { m with
    total := m.total + n
    markCount := m.markCount + 1
    markedAfterDispose := m.markedAfterDispose || decide (0 < m.disposeCount) }

def Meter.Dispose (m : Meter) : Meter :=
  { m with disposeCount := m.disposeCount + 1 }

/-- External `metrics.Histogram` handle: `Update` records a size sample. -/
structure Histogram where
  name : String
  samples : List Int := []
  disposeCount : Nat := 0
  markedAfterDispose : Bool := false
deriving Repr, DecidableEq

def Histogram.Update (h : Histogram) (n : Int) : Histogram :=
  { h with
    samples := h.samples ++ [n]
    markedAfterDispose := h.markedAfterDispose || decide (0 < h.disposeCount) }

def Histogram.Dispose (h : Histogram) : Histogram :=
  { h with disposeCount := h.disposeCount + 1 }

/-- One `IntervalCounter.Update(key, timestamp, amount)` call. -/
structure UsageRecord where
  key : String
  time : Nat
  amount : Nat
deriving Repr, DecidableEq

/-- External `metrics.IntervalCounter` handle: accumulates keyed usage
records. -/
structure IntervalCounter where
  name : String
  records : List UsageRecord := []
  disposeCount : Nat := 0
deriving Repr, DecidableEq

def IntervalCounter.Update (c : IntervalCounter) (k : String) (t : Nat)
    (a : Nat) : IntervalCounter :=
  { c with records := c.records ++ [⟨k, t, a⟩] }

inductive HandleKind
  | meter
  | histogram
  | intervalCounter
deriving Repr, DecidableEq

/-- One factory request made against the registry. -/
structure Request where
  kind : HandleKind
  name : String
deriving Repr, DecidableEq

/-- External `metrics.Registry`: a factory for named handles.  The model
returns a fresh handle for each request and logs the request, so that
claims about the requested names can be stated. -/
structure Registry where
  requests : List Request := []
deriving Repr, DecidableEq

def Registry.empty : Registry := ⟨[]⟩

def Registry.Meter (r : Registry) (name : String) : Meter × Registry :=
  ({ name := name }, ⟨r.requests ++ [⟨HandleKind.meter, name⟩]⟩)

def Registry.Histogram (r : Registry) (name : String) : Histogram × Registry :=
  ({ name := name }, ⟨r.requests ++ [⟨HandleKind.histogram, name⟩]⟩)

/-- `registry.IntervalCounter(name, duration)`; the duration argument is in
seconds (`time.Minute` = 60). -/
def Registry.IntervalCounter (r : Registry) (name : String)
    (_durationSeconds : Nat) : IntervalCounter × Registry :=
  ({ name := name }, ⟨r.requests ++ [⟨HandleKind.intervalCounter, name⟩]⟩)

/-- `time.Minute`, in seconds. -/
def timeMinute : Nat := 60

/-- External `channel2.Message`: a content-type tag (`int32`) and a body
(byte slice, modelled as a list of byte values). -/
structure Message where
  contentType : Int
  body : List Nat
deriving Repr, DecidableEq

/-- Modelled from the spec: `xgress.ContentTypePayloadType`, the
content-type tag identifying a session-data payload frame, is a constant
defined outside this repository; only equality with a message's
content-type matters to this core. -/
def ContentTypePayloadType : Int := 1100

/-- External `xgress.Payload`: a session identifier and data bytes. -/
structure Payload where
  sessionId : String
  data : List Nat
deriving Repr, DecidableEq

/-- Modelled from the spec: `xgress.UnmarshallPayload` is a decode function
defined outside this repository; the core only calls it and reacts to
success or failure, so it is passed as a parameter. -/
def Unmarshall : Type := Message → Except String Payload

/-- The Go struct `channelPeekHandler`.  `closeHook` is a closure over the
six link-scoped handles; it is modelled by the `hasCloseHook` flag plus the
`closeHook` function below.  `errorLog` models the global `pfxlog` logger's
error output.  `linkLatencyHistogram` exists in the Go struct but is never
set by the constructor nor used. -/
structure ChannelPeekHandler where
  appTxBytesMeter : Meter
  appTxMsgMeter : Meter
  appRxBytesMeter : Meter
  appRxMsgMeter : Meter
  appTxMsgSizeHistogram : Histogram
  appRxMsgSizeHistogram : Histogram
  linkLatencyHistogram : Histogram
  linkTxBytesMeter : Meter
  linkTxMsgMeter : Meter
  linkRxBytesMeter : Meter
  linkRxMsgMeter : Meter
  linkTxMsgSizeHistogram : Histogram
  linkRxMsgSizeHistogram : Histogram
  usageRxCounter : IntervalCounter
  usageTxCounter : IntervalCounter
  hasCloseHook : Bool
  errorLog : List String
deriving Repr, DecidableEq

/-- The disposal closure built by `NewChannelPeekHandler`: disposes the six
link-scoped handles only (app-level metrics and usage counters are shared
across all links and are not disposed). -/
def closeHook (h : ChannelPeekHandler) : ChannelPeekHandler :=
  { h with
    linkTxBytesMeter := h.linkTxBytesMeter.Dispose
    linkTxMsgMeter := h.linkTxMsgMeter.Dispose
    linkTxMsgSizeHistogram := h.linkTxMsgSizeHistogram.Dispose
    linkRxBytesMeter := h.linkRxBytesMeter.Dispose
    linkRxMsgMeter := h.linkRxMsgMeter.Dispose
    linkRxMsgSizeHistogram := h.linkRxMsgSizeHistogram.Dispose }

/-- `NewChannelPeekHandler(linkId, registry)`: obtains six app-wide handles,
six link-scoped handles and two usage interval counters from the registry,
in source order, and installs the close hook. -/
def NewChannelPeekHandler (linkId : String) (registry : Registry) :
    ChannelPeekHandler × Registry :=
  let (appTxBytesMeter, registry) := registry.Meter "fabric.tx.bytesrate"
  let (appTxMsgMeter, registry) := registry.Meter "fabric.tx.msgrate"
  let (appTxMsgSizeHistogram, registry) := registry.Histogram "fabric.tx.msgsize"
  let (appRxBytesMeter, registry) := registry.Meter "fabric.rx.bytesrate"
  let (appRxMsgMeter, registry) := registry.Meter "fabric.rx.msgrate"
  let (appRxMsgSizeHistogram, registry) := registry.Histogram "fabric.rx.msgsize"
  let (linkTxBytesMeter, registry) := registry.Meter ("link." ++ linkId ++ ".tx.bytesrate")
  let (linkTxMsgMeter, registry) := registry.Meter ("link." ++ linkId ++ ".tx.msgrate")
  let (linkTxMsgSizeHistogram, registry) := registry.Histogram ("link." ++ linkId ++ ".tx.msgsize")
  let (linkRxBytesMeter, registry) := registry.Meter ("link." ++ linkId ++ ".rx.bytesrate")
  let (linkRxMsgMeter, registry) := registry.Meter ("link." ++ linkId ++ ".rx.msgrate")
  let (linkRxMsgSizeHistogram, registry) := registry.Histogram ("link." ++ linkId ++ ".rx.msgsize")
  let (usageRxCounter, registry) := registry.IntervalCounter "usage.fabric.rx" timeMinute
  let (usageTxCounter, registry) := registry.IntervalCounter "usage.fabric.tx" timeMinute
  ({ appTxBytesMeter := appTxBytesMeter
     appTxMsgMeter := appTxMsgMeter
     appRxBytesMeter := appRxBytesMeter
     appRxMsgMeter := appRxMsgMeter
     appTxMsgSizeHistogram := appTxMsgSizeHistogram
     appRxMsgSizeHistogram := appRxMsgSizeHistogram
     linkLatencyHistogram := { name := "" }
     linkTxBytesMeter := linkTxBytesMeter
     linkTxMsgMeter := linkTxMsgMeter
     linkRxBytesMeter := linkRxBytesMeter
     linkRxMsgMeter := linkRxMsgMeter
     linkTxMsgSizeHistogram := linkTxMsgSizeHistogram
     linkRxMsgSizeHistogram := linkRxMsgSizeHistogram
     usageRxCounter := usageRxCounter
     usageTxCounter := usageTxCounter
     hasCloseHook := true
     errorLog := [] }, registry)

/-- `(h *channelPeekHandler) Connect`: no-op. -/
def ChannelPeekHandler.Connect (h : ChannelPeekHandler)
    (_remoteAddress : String) : ChannelPeekHandler := h

/-- `(h *channelPeekHandler) Rx(msg, ch)`: mark link and app rx meters and
histogram by the body size, then, for session-data payload frames, decode
and update the inbound usage counter (logging decode failures).  The
function is total: no error is propagated to the caller. -/
def ChannelPeekHandler.Rx (h : ChannelPeekHandler) (unm : Unmarshall)
    (now : Nat) (msg : Message) : ChannelPeekHandler :=
  let msgSize : Int := (msg.body.length : Int)
  let h1 := { h with
    linkRxBytesMeter := h.linkRxBytesMeter.Mark msgSize
    linkRxMsgMeter := h.linkRxMsgMeter.Mark 1
    linkRxMsgSizeHistogram := h.linkRxMsgSizeHistogram.Update msgSize
    appRxBytesMeter := h.appRxBytesMeter.Mark msgSize
    appRxMsgMeter := h.appRxMsgMeter.Mark 1
    appRxMsgSizeHistogram := h.appRxMsgSizeHistogram.Update msgSize }
  if msg.contentType = ContentTypePayloadType then
    match unm msg with
    | Except.error e =>
        { h1 with errorLog := h1.errorLog ++
            ["Failed to unmarshal payload. Error: " ++ e] }
    | Except.ok payload =>
        { h1 with usageRxCounter :=
            h1.usageRxCounter.Update payload.sessionId now payload.data.length }
  else h1

/-- `(h *channelPeekHandler) Tx(msg, ch)`: symmetric to `Rx` with the
tx-direction handles and the outbound usage counter. -/
def ChannelPeekHandler.Tx (h : ChannelPeekHandler) (unm : Unmarshall)
    (now : Nat) (msg : Message) : ChannelPeekHandler :=
  let msgSize : Int := (msg.body.length : Int)
  let h1 := { h with
    linkTxBytesMeter := h.linkTxBytesMeter.Mark msgSize
    linkTxMsgMeter := h.linkTxMsgMeter.Mark 1
    linkTxMsgSizeHistogram := h.linkTxMsgSizeHistogram.Update msgSize
    appTxBytesMeter := h.appTxBytesMeter.Mark msgSize
    appTxMsgMeter := h.appTxMsgMeter.Mark 1
    appTxMsgSizeHistogram := h.appTxMsgSizeHistogram.Update msgSize }
  if msg.contentType = ContentTypePayloadType then
    match unm msg with
    | Except.error e =>
        { h1 with errorLog := h1.errorLog ++
            ["Failed to unmarshal payload. Error: " ++ e] }
    | Except.ok payload =>
        { h1 with usageTxCounter :=
            h1.usageTxCounter.Update payload.sessionId now payload.data.length }
  else h1

/-- `(h *channelPeekHandler) Close(ch)`: runs the close hook when present. -/
def ChannelPeekHandler.Close (h : ChannelPeekHandler) : ChannelPeekHandler :=
  if h.hasCloseHook then closeHook h else h

/-- One invocation on a channel peek handler (for trace claims). -/
inductive ChanEvent
  | rx (msg : Message) (now : Nat)
  | tx (msg : Message) (now : Nat)
  | close
deriving Repr, DecidableEq

/-- Run a sequence of invocations on a channel peek handler. -/
def runChannel (unm : Unmarshall) (h : ChannelPeekHandler) :
    List ChanEvent → ChannelPeekHandler
  | [] => h
  | ChanEvent.rx msg now :: rest => runChannel unm (h.Rx unm now msg) rest
  | ChanEvent.tx msg now :: rest => runChannel unm (h.Tx unm now msg) rest
  | ChanEvent.close :: rest => runChannel unm h.Close rest

/-- External `xgress.Originator`: which side created the session. -/
inductive Originator
  | Initiator
  | Acceptor
deriving Repr, DecidableEq

/-- External `xgress.Xgress`: exposes `Originator()` and
`SessionId().Token`. -/
structure Xgress where
  originator : Originator
  sessionToken : String
deriving Repr, DecidableEq

/-- The Go struct `xgressPeekHandler`. -/
structure XgressPeekHandler where
  ingressTxBytesMeter : Meter
  ingressTxMsgMeter : Meter
  ingressRxBytesMeter : Meter
  ingressRxMsgMeter : Meter
  egressTxBytesMeter : Meter
  egressTxMsgMeter : Meter
  egressRxBytesMeter : Meter
  egressRxMsgMeter : Meter
  ingressTxMsgSizeHistogram : Histogram
  ingressRxMsgSizeHistogram : Histogram
  egressTxMsgSizeHistogram : Histogram
  egressRxMsgSizeHistogram : Histogram
  ingressRxUsageCounter : IntervalCounter
  ingressTxUsageCounter : IntervalCounter
  egressRxUsageCounter : IntervalCounter
  egressTxUsageCounter : IntervalCounter
deriving Repr, DecidableEq

/-- `NewXgressPeekHandler(registry)`: obtains eight meters, four histograms
and four usage interval counters from the registry, in source order. -/
def NewXgressPeekHandler (registry : Registry) :
    XgressPeekHandler × Registry :=
  let (ingressTxBytesMeter, registry) := registry.Meter "ingress.tx.bytesrate"
  let (ingressTxMsgMeter, registry) := registry.Meter "ingress.tx.msgrate"
  let (ingressRxBytesMeter, registry) := registry.Meter "ingress.rx.bytesrate"
  let (ingressRxMsgMeter, registry) := registry.Meter "ingress.rx.msgrate"
  let (egressTxBytesMeter, registry) := registry.Meter "egress.tx.bytesrate"
  let (egressTxMsgMeter, registry) := registry.Meter "egress.tx.Msgrate"
  let (egressRxBytesMeter, registry) := registry.Meter "egress.rx.bytesrate"
  let (egressRxMsgMeter, registry) := registry.Meter "egress.rx.msgrate"
  let (ingressTxMsgSizeHistogram, registry) := registry.Histogram "ingress.tx.msgsize"
  let (ingressRxMsgSizeHistogram, registry) := registry.Histogram "ingress.rx.msgsize"
  let (egressTxMsgSizeHistogram, registry) := registry.Histogram "egress.tx.msgsize"
  let (egressRxMsgSizeHistogram, registry) := registry.Histogram "egress.rx.msgsize"
  let (ingressRxUsageCounter, registry) := registry.IntervalCounter "usage.ingress.rx" timeMinute
  let (ingressTxUsageCounter, registry) := registry.IntervalCounter "usage.ingress.tx" timeMinute
  let (egressRxUsageCounter, registry) := registry.IntervalCounter "usage.egress.rx" timeMinute
  let (egressTxUsageCounter, registry) := registry.IntervalCounter "usage.egress.tx" timeMinute
  ({ ingressTxBytesMeter := ingressTxBytesMeter
     ingressTxMsgMeter := ingressTxMsgMeter
     ingressRxBytesMeter := ingressRxBytesMeter
     ingressRxMsgMeter := ingressRxMsgMeter
     egressTxBytesMeter := egressTxBytesMeter
     egressTxMsgMeter := egressTxMsgMeter
     egressRxBytesMeter := egressRxBytesMeter
     egressRxMsgMeter := egressRxMsgMeter
     ingressTxMsgSizeHistogram := ingressTxMsgSizeHistogram
     ingressRxMsgSizeHistogram := ingressRxMsgSizeHistogram
     egressTxMsgSizeHistogram := egressTxMsgSizeHistogram
     egressRxMsgSizeHistogram := egressRxMsgSizeHistogram
     ingressRxUsageCounter := ingressRxUsageCounter
     ingressTxUsageCounter := ingressTxUsageCounter
     egressRxUsageCounter := egressRxUsageCounter
     egressTxUsageCounter := egressTxUsageCounter }, registry)

/-- `(handler *xgressPeekHandler) Rx(x, payload)`: updates the rx handles of
the class determined by the flow's originator (ingress for initiator,
egress otherwise). -/
def XgressPeekHandler.Rx (handler : XgressPeekHandler) (now : Nat)
    (x : Xgress) (payload : Payload) : XgressPeekHandler :=
  let msgSize : Int := (payload.data.length : Int)
  if x.originator = Originator.Initiator then
    { handler with
      ingressRxUsageCounter :=
        handler.ingressRxUsageCounter.Update x.sessionToken now payload.data.length
      ingressRxMsgMeter := handler.ingressRxMsgMeter.Mark 1
      ingressRxBytesMeter := handler.ingressRxBytesMeter.Mark msgSize
      ingressRxMsgSizeHistogram := handler.ingressRxMsgSizeHistogram.Update msgSize }
  else
    { handler with
      egressRxUsageCounter :=
        handler.egressRxUsageCounter.Update x.sessionToken now payload.data.length
      egressRxMsgMeter := handler.egressRxMsgMeter.Mark 1
      egressRxBytesMeter := handler.egressRxBytesMeter.Mark msgSize
      egressRxMsgSizeHistogram := handler.egressRxMsgSizeHistogram.Update msgSize }

/-- `(handler *xgressPeekHandler) Tx(x, payload)`: symmetric to `Rx` with
the tx-direction handles. -/
def XgressPeekHandler.Tx (handler : XgressPeekHandler) (now : Nat)
    (x : Xgress) (payload : Payload) : XgressPeekHandler :=
  let msgSize : Int := (payload.data.length : Int)
  if x.originator = Originator.Initiator then
    { handler with
      ingressTxUsageCounter :=
        handler.ingressTxUsageCounter.Update x.sessionToken now payload.data.length
      ingressTxMsgMeter := handler.ingressTxMsgMeter.Mark 1
      ingressTxBytesMeter := handler.ingressTxBytesMeter.Mark msgSize
      ingressTxMsgSizeHistogram := handler.ingressTxMsgSizeHistogram.Update msgSize }
  else
    { handler with
      egressTxUsageCounter :=
        handler.egressTxUsageCounter.Update x.sessionToken now payload.data.length
      egressTxMsgMeter := handler.egressTxMsgMeter.Mark 1
      egressTxBytesMeter := handler.egressTxBytesMeter.Mark msgSize
      egressTxMsgSizeHistogram := handler.egressTxMsgSizeHistogram.Update msgSize }

/-- `(handler *xgressPeekHandler) Close(x)`: no-op. -/
def XgressPeekHandler.Close (handler : XgressPeekHandler)
    (_x : Xgress) : XgressPeekHandler := handler

/-- A dotted all-lowercase metric name: every character is a lowercase
letter or a dot. -/
def isLowerDotted (s : String) : Bool :=
  s.data.all fun c => c.isLower || c == '.'

/-- All six link-scoped handles are undisposed and were never updated after
a disposal. -/
def linkHandlesFresh (h : ChannelPeekHandler) : Prop :=
  h.linkTxBytesMeter.disposeCount = 0
  ∧ h.linkTxBytesMeter.markedAfterDispose = false
  ∧ h.linkTxMsgMeter.disposeCount = 0
  ∧ h.linkTxMsgMeter.markedAfterDispose = false
  ∧ h.linkTxMsgSizeHistogram.disposeCount = 0
  ∧ h.linkTxMsgSizeHistogram.markedAfterDispose = false
  ∧ h.linkRxBytesMeter.disposeCount = 0
  ∧ h.linkRxBytesMeter.markedAfterDispose = false
  ∧ h.linkRxMsgMeter.disposeCount = 0
  ∧ h.linkRxMsgMeter.markedAfterDispose = false
  ∧ h.linkRxMsgSizeHistogram.disposeCount = 0
  ∧ h.linkRxMsgSizeHistogram.markedAfterDispose = false

/-- All six link-scoped handles have been disposed at most once and were
never updated after a disposal. -/
def linkHandlesDisposedAtMostOnce (h : ChannelPeekHandler) : Prop :=
  h.linkTxBytesMeter.disposeCount ≤ 1
  ∧ h.linkTxBytesMeter.markedAfterDispose = false
  ∧ h.linkTxMsgMeter.disposeCount ≤ 1
  ∧ h.linkTxMsgMeter.markedAfterDispose = false
  ∧ h.linkTxMsgSizeHistogram.disposeCount ≤ 1
  ∧ h.linkTxMsgSizeHistogram.markedAfterDispose = false
  ∧ h.linkRxBytesMeter.disposeCount ≤ 1
  ∧ h.linkRxBytesMeter.markedAfterDispose = false
  ∧ h.linkRxMsgMeter.disposeCount ≤ 1
  ∧ h.linkRxMsgMeter.markedAfterDispose = false
  ∧ h.linkRxMsgSizeHistogram.disposeCount ≤ 1
  ∧ h.linkRxMsgSizeHistogram.markedAfterDispose = false

/-! ## Sample inputs used by concrete witnesses -/

/-- A decode function that always fails. -/
def unmFail : Unmarshall := fun _ => Except.error "bad"

/-- A decode function that reads the session token `"S1"` and treats all
but the first ten body bytes as data. -/
def unmS1 : Unmarshall := fun msg => Except.ok ⟨"S1", msg.body.drop 10⟩

/-- A message carrying the session-data payload content-type. -/
def msgPayload : Message := ⟨1100, [1, 2, 3]⟩

/-- A message with some other content-type. -/
def msgOther : Message := ⟨5, [1, 2]⟩

/-- A 100-byte message with a non-payload content-type. -/
def msg100 : Message := ⟨5, List.replicate 100 0⟩

/-- A 50-byte message with the session-data payload content-type. -/
def msg50 : Message := ⟨1100, List.replicate 50 1⟩

/-- The payload `msg50` decodes to under `unmS1`. -/
def payload40 : Payload := ⟨"S1", List.replicate 40 1⟩

/-! ## Basic handle lemmas -/

theorem Meter.total_Mark (m : Meter) (n : Int) : (m.Mark n).total = m.total + n := rfl

theorem Meter.disposeCount_Mark (m : Meter) (n : Int) :
    (m.Mark n).disposeCount = m.disposeCount := rfl

theorem Meter.markedAfterDispose_Mark_of_fresh (m : Meter) (n : Int)
    (hd : m.disposeCount = 0) :
    (m.Mark n).markedAfterDispose = m.markedAfterDispose := by
  simp [Meter.Mark, hd]

theorem Histogram.disposeCount_Update (h : Histogram) (n : Int) :
    (h.Update n).disposeCount = h.disposeCount := rfl

theorem Histogram.markedAfterDispose_Update_of_fresh (h : Histogram) (n : Int)
    (hd : h.disposeCount = 0) :
    (h.Update n).markedAfterDispose = h.markedAfterDispose := by
  simp [Histogram.Update, hd]

/-! ## Case characterizations of the channel handler's `Rx` and `Tx` -/

/-- `Rx` on a session-data frame that decodes to `p`. -/
theorem chanRx_eq_of_ok (h : ChannelPeekHandler) (unm : Unmarshall) (now : Nat)
    (msg : Message) (p : Payload)
    (hct : msg.contentType = ContentTypePayloadType)
    (hok : unm msg = Except.ok p) :
    h.Rx unm now msg = { h with
      linkRxBytesMeter := h.linkRxBytesMeter.Mark msg.body.length
      linkRxMsgMeter := h.linkRxMsgMeter.Mark 1
      linkRxMsgSizeHistogram := h.linkRxMsgSizeHistogram.Update msg.body.length
      appRxBytesMeter := h.appRxBytesMeter.Mark msg.body.length
      appRxMsgMeter := h.appRxMsgMeter.Mark 1
      appRxMsgSizeHistogram := h.appRxMsgSizeHistogram.Update msg.body.length
      usageRxCounter := h.usageRxCounter.Update p.sessionId now p.data.length } := by
  simp [ChannelPeekHandler.Rx, hct, hok]

/-- `Rx` on a session-data frame that fails to decode. -/
theorem chanRx_eq_of_error (h : ChannelPeekHandler) (unm : Unmarshall) (now : Nat)
    (msg : Message) (e : String)
    (hct : msg.contentType = ContentTypePayloadType)
    (herr : unm msg = Except.error e) :
    h.Rx unm now msg = { h with
      linkRxBytesMeter := h.linkRxBytesMeter.Mark msg.body.length
      linkRxMsgMeter := h.linkRxMsgMeter.Mark 1
      linkRxMsgSizeHistogram := h.linkRxMsgSizeHistogram.Update msg.body.length
      appRxBytesMeter := h.appRxBytesMeter.Mark msg.body.length
      appRxMsgMeter := h.appRxMsgMeter.Mark 1
      appRxMsgSizeHistogram := h.appRxMsgSizeHistogram.Update msg.body.length
      errorLog := h.errorLog ++ ["Failed to unmarshal payload. Error: " ++ e] } := by
  simp [ChannelPeekHandler.Rx, hct, herr]

/-- `Rx` on a message that is not a session-data frame. -/
theorem chanRx_eq_of_other (h : ChannelPeekHandler) (unm : Unmarshall) (now : Nat)
    (msg : Message)
    (hct : msg.contentType ≠ ContentTypePayloadType) :
    h.Rx unm now msg = { h with
      linkRxBytesMeter := h.linkRxBytesMeter.Mark msg.body.length
      linkRxMsgMeter := h.linkRxMsgMeter.Mark 1
      linkRxMsgSizeHistogram := h.linkRxMsgSizeHistogram.Update msg.body.length
      appRxBytesMeter := h.appRxBytesMeter.Mark msg.body.length
      appRxMsgMeter := h.appRxMsgMeter.Mark 1
      appRxMsgSizeHistogram := h.appRxMsgSizeHistogram.Update msg.body.length } := by
  simp [ChannelPeekHandler.Rx, hct]

/-- `Tx` on a session-data frame that decodes to `p`. -/
theorem chanTx_eq_of_ok (h : ChannelPeekHandler) (unm : Unmarshall) (now : Nat)
    (msg : Message) (p : Payload)
    (hct : msg.contentType = ContentTypePayloadType)
    (hok : unm msg = Except.ok p) :
    h.Tx unm now msg = { h with
      linkTxBytesMeter := h.linkTxBytesMeter.Mark msg.body.length
      linkTxMsgMeter := h.linkTxMsgMeter.Mark 1
      linkTxMsgSizeHistogram := h.linkTxMsgSizeHistogram.Update msg.body.length
      appTxBytesMeter := h.appTxBytesMeter.Mark msg.body.length
      appTxMsgMeter := h.appTxMsgMeter.Mark 1
      appTxMsgSizeHistogram := h.appTxMsgSizeHistogram.Update msg.body.length
      usageTxCounter := h.usageTxCounter.Update p.sessionId now p.data.length } := by
  simp [ChannelPeekHandler.Tx, hct, hok]

/-- `Tx` on a session-data frame that fails to decode. -/
theorem chanTx_eq_of_error (h : ChannelPeekHandler) (unm : Unmarshall) (now : Nat)
    (msg : Message) (e : String)
    (hct : msg.contentType = ContentTypePayloadType)
    (herr : unm msg = Except.error e) :
    h.Tx unm now msg = { h with
      linkTxBytesMeter := h.linkTxBytesMeter.Mark msg.body.length
      linkTxMsgMeter := h.linkTxMsgMeter.Mark 1
      linkTxMsgSizeHistogram := h.linkTxMsgSizeHistogram.Update msg.body.length
      appTxBytesMeter := h.appTxBytesMeter.Mark msg.body.length
      appTxMsgMeter := h.appTxMsgMeter.Mark 1
      appTxMsgSizeHistogram := h.appTxMsgSizeHistogram.Update msg.body.length
      errorLog := h.errorLog ++ ["Failed to unmarshal payload. Error: " ++ e] } := by
  simp [ChannelPeekHandler.Tx, hct, herr]

/-- `Tx` on a message that is not a session-data frame. -/
theorem chanTx_eq_of_other (h : ChannelPeekHandler) (unm : Unmarshall) (now : Nat)
    (msg : Message)
    (hct : msg.contentType ≠ ContentTypePayloadType) :
    h.Tx unm now msg = { h with
      linkTxBytesMeter := h.linkTxBytesMeter.Mark msg.body.length
      linkTxMsgMeter := h.linkTxMsgMeter.Mark 1
      linkTxMsgSizeHistogram := h.linkTxMsgSizeHistogram.Update msg.body.length
      appTxBytesMeter := h.appTxBytesMeter.Mark msg.body.length
      appTxMsgMeter := h.appTxMsgMeter.Mark 1
      appTxMsgSizeHistogram := h.appTxMsgSizeHistogram.Update msg.body.length } := by
  simp [ChannelPeekHandler.Tx, hct]

/-! ## Case characterizations of the xgress handler's `Rx` and `Tx` -/

theorem xgressRx_eq_initiator (handler : XgressPeekHandler) (now : Nat)
    (x : Xgress) (p : Payload) (ho : x.originator = Originator.Initiator) :
    handler.Rx now x p = { handler with
      ingressRxUsageCounter :=
        handler.ingressRxUsageCounter.Update x.sessionToken now p.data.length
      ingressRxMsgMeter := handler.ingressRxMsgMeter.Mark 1
      ingressRxBytesMeter := handler.ingressRxBytesMeter.Mark p.data.length
      ingressRxMsgSizeHistogram :=
        handler.ingressRxMsgSizeHistogram.Update p.data.length } := by
  simp [XgressPeekHandler.Rx, ho]

theorem xgressRx_eq_acceptor (handler : XgressPeekHandler) (now : Nat)
    (x : Xgress) (p : Payload) (ho : x.originator ≠ Originator.Initiator) :
    handler.Rx now x p = { handler with
      egressRxUsageCounter :=
        handler.egressRxUsageCounter.Update x.sessionToken now p.data.length
      egressRxMsgMeter := handler.egressRxMsgMeter.Mark 1
      egressRxBytesMeter := handler.egressRxBytesMeter.Mark p.data.length
      egressRxMsgSizeHistogram :=
        handler.egressRxMsgSizeHistogram.Update p.data.length } := by
  simp [XgressPeekHandler.Rx, ho]

theorem xgressTx_eq_initiator (handler : XgressPeekHandler) (now : Nat)
    (x : Xgress) (p : Payload) (ho : x.originator = Originator.Initiator) :
    handler.Tx now x p = { handler with
      ingressTxUsageCounter :=
        handler.ingressTxUsageCounter.Update x.sessionToken now p.data.length
      ingressTxMsgMeter := handler.ingressTxMsgMeter.Mark 1
      ingressTxBytesMeter := handler.ingressTxBytesMeter.Mark p.data.length
      ingressTxMsgSizeHistogram :=
        handler.ingressTxMsgSizeHistogram.Update p.data.length } := by
  simp [XgressPeekHandler.Tx, ho]

theorem xgressTx_eq_acceptor (handler : XgressPeekHandler) (now : Nat)
    (x : Xgress) (p : Payload) (ho : x.originator ≠ Originator.Initiator) :
    handler.Tx now x p = { handler with
      egressTxUsageCounter :=
        handler.egressTxUsageCounter.Update x.sessionToken now p.data.length
      egressTxMsgMeter := handler.egressTxMsgMeter.Mark 1
      egressTxBytesMeter := handler.egressTxBytesMeter.Mark p.data.length
      egressTxMsgSizeHistogram :=
        handler.egressTxMsgSizeHistogram.Update p.data.length } := by
  simp [XgressPeekHandler.Tx, ho]

/-! ## `Close` and constructor characterizations -/

theorem chanClose_eq_of_hook (h : ChannelPeekHandler)
    (hc : h.hasCloseHook = true) : h.Close = closeHook h := by
  simp [ChannelPeekHandler.Close, hc]

/-- The handler built by `NewChannelPeekHandler`: all handles fresh, named
as in the source, with the close hook installed. -/
theorem NewChannelPeekHandler_fst (linkId : String) (r : Registry) :
    (NewChannelPeekHandler linkId r).1 = {
      appTxBytesMeter := { name := "fabric.tx.bytesrate" }
      appTxMsgMeter := { name := "fabric.tx.msgrate" }
      appRxBytesMeter := { name := "fabric.rx.bytesrate" }
      appRxMsgMeter := { name := "fabric.rx.msgrate" }
      appTxMsgSizeHistogram := { name := "fabric.tx.msgsize" }
      appRxMsgSizeHistogram := { name := "fabric.rx.msgsize" }
      linkLatencyHistogram := { name := "" }
      linkTxBytesMeter := { name := "link." ++ linkId ++ ".tx.bytesrate" }
      linkTxMsgMeter := { name := "link." ++ linkId ++ ".tx.msgrate" }
      linkRxBytesMeter := { name := "link." ++ linkId ++ ".rx.bytesrate" }
      linkRxMsgMeter := { name := "link." ++ linkId ++ ".rx.msgrate" }
      linkTxMsgSizeHistogram := { name := "link." ++ linkId ++ ".tx.msgsize" }
      linkRxMsgSizeHistogram := { name := "link." ++ linkId ++ ".rx.msgsize" }
      usageRxCounter := { name := "usage.fabric.rx" }
      usageTxCounter := { name := "usage.fabric.tx" }
      hasCloseHook := true
      errorLog := [] } := rfl

/-- The handler built by `NewXgressPeekHandler`: all handles fresh, named
as in the source. -/
theorem NewXgressPeekHandler_fst (r : Registry) :
    (NewXgressPeekHandler r).1 = {
      ingressTxBytesMeter := { name := "ingress.tx.bytesrate" }
      ingressTxMsgMeter := { name := "ingress.tx.msgrate" }
      ingressRxBytesMeter := { name := "ingress.rx.bytesrate" }
      ingressRxMsgMeter := { name := "ingress.rx.msgrate" }
      egressTxBytesMeter := { name := "egress.tx.bytesrate" }
      egressTxMsgMeter := { name := "egress.tx.Msgrate" }
      egressRxBytesMeter := { name := "egress.rx.bytesrate" }
      egressRxMsgMeter := { name := "egress.rx.msgrate" }
      ingressTxMsgSizeHistogram := { name := "ingress.tx.msgsize" }
      ingressRxMsgSizeHistogram := { name := "ingress.rx.msgsize" }
      egressTxMsgSizeHistogram := { name := "egress.tx.msgsize" }
      egressRxMsgSizeHistogram := { name := "egress.rx.msgsize" }
      ingressRxUsageCounter := { name := "usage.ingress.rx" }
      ingressTxUsageCounter := { name := "usage.ingress.tx" }
      egressRxUsageCounter := { name := "usage.egress.rx" }
      egressTxUsageCounter := { name := "usage.egress.tx" } } := rfl

/-- The factory requests made by `NewChannelPeekHandler`, in order. -/
theorem NewChannelPeekHandler_requests (linkId : String) (r : Registry) :
    (NewChannelPeekHandler linkId r).2.requests = r.requests ++
      [⟨HandleKind.meter, "fabric.tx.bytesrate"⟩,
       ⟨HandleKind.meter, "fabric.tx.msgrate"⟩,
       ⟨HandleKind.histogram, "fabric.tx.msgsize"⟩,
       ⟨HandleKind.meter, "fabric.rx.bytesrate"⟩,
       ⟨HandleKind.meter, "fabric.rx.msgrate"⟩,
       ⟨HandleKind.histogram, "fabric.rx.msgsize"⟩,
       ⟨HandleKind.meter, "link." ++ linkId ++ ".tx.bytesrate"⟩,
       ⟨HandleKind.meter, "link." ++ linkId ++ ".tx.msgrate"⟩,
       ⟨HandleKind.histogram, "link." ++ linkId ++ ".tx.msgsize"⟩,
       ⟨HandleKind.meter, "link." ++ linkId ++ ".rx.bytesrate"⟩,
       ⟨HandleKind.meter, "link." ++ linkId ++ ".rx.msgrate"⟩,
       ⟨HandleKind.histogram, "link." ++ linkId ++ ".rx.msgsize"⟩,
       ⟨HandleKind.intervalCounter, "usage.fabric.rx"⟩,
       ⟨HandleKind.intervalCounter, "usage.fabric.tx"⟩] := by
  simp [NewChannelPeekHandler, Registry.Meter, Registry.Histogram,
    Registry.IntervalCounter]

/-- The factory requests made by `NewXgressPeekHandler`, in order. -/
theorem NewXgressPeekHandler_requests (r : Registry) :
    (NewXgressPeekHandler r).2.requests = r.requests ++
      [⟨HandleKind.meter, "ingress.tx.bytesrate"⟩,
       ⟨HandleKind.meter, "ingress.tx.msgrate"⟩,
       ⟨HandleKind.meter, "ingress.rx.bytesrate"⟩,
       ⟨HandleKind.meter, "ingress.rx.msgrate"⟩,
       ⟨HandleKind.meter, "egress.tx.bytesrate"⟩,
       ⟨HandleKind.meter, "egress.tx.Msgrate"⟩,
       ⟨HandleKind.meter, "egress.rx.bytesrate"⟩,
       ⟨HandleKind.meter, "egress.rx.msgrate"⟩,
       ⟨HandleKind.histogram, "ingress.tx.msgsize"⟩,
       ⟨HandleKind.histogram, "ingress.rx.msgsize"⟩,
       ⟨HandleKind.histogram, "egress.tx.msgsize"⟩,
       ⟨HandleKind.histogram, "egress.rx.msgsize"⟩,
       ⟨HandleKind.intervalCounter, "usage.ingress.rx"⟩,
       ⟨HandleKind.intervalCounter, "usage.ingress.tx"⟩,
       ⟨HandleKind.intervalCounter, "usage.egress.rx"⟩,
       ⟨HandleKind.intervalCounter, "usage.egress.tx"⟩] := by
  simp [NewXgressPeekHandler, Registry.Meter, Registry.Histogram,
    Registry.IntervalCounter]

/-! ## Uniform field effects of `Rx` and `Tx` (independent of the decode
outcome), and disposal-state tracking over traces -/

/-- Effect of `Rx` on the meter, histogram and flag fields, in every decode
branch. -/
theorem chanRx_link_fields (h : ChannelPeekHandler) (unm : Unmarshall)
    (now : Nat) (msg : Message) :
    (h.Rx unm now msg).linkRxBytesMeter = h.linkRxBytesMeter.Mark msg.body.length
    ∧ (h.Rx unm now msg).linkRxMsgMeter = h.linkRxMsgMeter.Mark 1
    ∧ (h.Rx unm now msg).linkRxMsgSizeHistogram
        = h.linkRxMsgSizeHistogram.Update msg.body.length
    ∧ (h.Rx unm now msg).appRxBytesMeter = h.appRxBytesMeter.Mark msg.body.length
    ∧ (h.Rx unm now msg).appRxMsgMeter = h.appRxMsgMeter.Mark 1
    ∧ (h.Rx unm now msg).linkTxBytesMeter = h.linkTxBytesMeter
    ∧ (h.Rx unm now msg).linkTxMsgMeter = h.linkTxMsgMeter
    ∧ (h.Rx unm now msg).linkTxMsgSizeHistogram = h.linkTxMsgSizeHistogram
    ∧ (h.Rx unm now msg).appTxBytesMeter = h.appTxBytesMeter
    ∧ (h.Rx unm now msg).appTxMsgMeter = h.appTxMsgMeter
    ∧ (h.Rx unm now msg).hasCloseHook = h.hasCloseHook := by
  simp only [ChannelPeekHandler.Rx]
  split
  · split <;> exact ⟨rfl, rfl, rfl, rfl, rfl, rfl, rfl, rfl, rfl, rfl, rfl⟩
  · exact ⟨rfl, rfl, rfl, rfl, rfl, rfl, rfl, rfl, rfl, rfl, rfl⟩

/-- Effect of `Tx` on the meter, histogram and flag fields, in every decode
branch. -/
theorem chanTx_link_fields (h : ChannelPeekHandler) (unm : Unmarshall)
    (now : Nat) (msg : Message) :
    (h.Tx unm now msg).linkTxBytesMeter = h.linkTxBytesMeter.Mark msg.body.length
    ∧ (h.Tx unm now msg).linkTxMsgMeter = h.linkTxMsgMeter.Mark 1
    ∧ (h.Tx unm now msg).linkTxMsgSizeHistogram
        = h.linkTxMsgSizeHistogram.Update msg.body.length
    ∧ (h.Tx unm now msg).appTxBytesMeter = h.appTxBytesMeter.Mark msg.body.length
    ∧ (h.Tx unm now msg).appTxMsgMeter = h.appTxMsgMeter.Mark 1
    ∧ (h.Tx unm now msg).linkRxBytesMeter = h.linkRxBytesMeter
    ∧ (h.Tx unm now msg).linkRxMsgMeter = h.linkRxMsgMeter
    ∧ (h.Tx unm now msg).linkRxMsgSizeHistogram = h.linkRxMsgSizeHistogram
    ∧ (h.Tx unm now msg).appRxBytesMeter = h.appRxBytesMeter
    ∧ (h.Tx unm now msg).appRxMsgMeter = h.appRxMsgMeter
    ∧ (h.Tx unm now msg).hasCloseHook = h.hasCloseHook := by
  simp only [ChannelPeekHandler.Tx]
  split
  · split <;> exact ⟨rfl, rfl, rfl, rfl, rfl, rfl, rfl, rfl, rfl, rfl, rfl⟩
  · exact ⟨rfl, rfl, rfl, rfl, rfl, rfl, rfl, rfl, rfl, rfl, rfl⟩

theorem linkHandlesFresh_Rx (h : ChannelPeekHandler) (unm : Unmarshall)
    (now : Nat) (msg : Message) (hf : linkHandlesFresh h) :
    linkHandlesFresh (h.Rx unm now msg) := by
  obtain ⟨l1, l2, l3, l4, l5, l6, l7, l8, l9, l10, l11, l12⟩ := hf
  obtain ⟨e1, e2, e3, e4, e5, e6, e7, e8, e9, e10, e11⟩ :=
    chanRx_link_fields h unm now msg
  unfold linkHandlesFresh
  simp only [e1, e2, e3, e6, e7, e8]
  simp [Meter.Mark, Histogram.Update, l1, l2, l3, l4, l5, l6, l7, l8, l9,
    l10, l11, l12]

theorem linkHandlesFresh_Tx (h : ChannelPeekHandler) (unm : Unmarshall)
    (now : Nat) (msg : Message) (hf : linkHandlesFresh h) :
    linkHandlesFresh (h.Tx unm now msg) := by
  obtain ⟨l1, l2, l3, l4, l5, l6, l7, l8, l9, l10, l11, l12⟩ := hf
  obtain ⟨e1, e2, e3, e4, e5, e6, e7, e8, e9, e10, e11⟩ :=
    chanTx_link_fields h unm now msg
  unfold linkHandlesFresh
  simp only [e1, e2, e3, e6, e7, e8]
  simp [Meter.Mark, Histogram.Update, l1, l2, l3, l4, l5, l6, l7, l8, l9,
    l10, l11, l12]

theorem linkHandlesFresh_runChannel (unm : Unmarshall) (evs : List ChanEvent)
    (hnc : ChanEvent.close ∉ evs) :
    ∀ h : ChannelPeekHandler, linkHandlesFresh h →
      linkHandlesFresh (runChannel unm h evs) := by
  induction evs with
  | nil => exact fun h hf => hf
  | cons ev rest ih =>
      intro h hf
      have hrest : ChanEvent.close ∉ rest :=
        fun hm => hnc (List.mem_cons_of_mem _ hm)
      cases ev with
      | rx msg now => exact ih hrest _ (linkHandlesFresh_Rx h unm now msg hf)
      | tx msg now => exact ih hrest _ (linkHandlesFresh_Tx h unm now msg hf)
      | close => exact absurd (List.mem_cons_self _ _) hnc

theorem linkHandlesFresh_new (linkId : String) (r : Registry) :
    linkHandlesFresh (NewChannelPeekHandler linkId r).1 :=
  ⟨rfl, rfl, rfl, rfl, rfl, rfl, rfl, rfl, rfl, rfl, rfl, rfl⟩

theorem disposedAtMostOnce_of_fresh (h : ChannelPeekHandler)
    (hf : linkHandlesFresh h) : linkHandlesDisposedAtMostOnce h := by
  obtain ⟨l1, l2, l3, l4, l5, l6, l7, l8, l9, l10, l11, l12⟩ := hf
  exact ⟨by omega, l2, by omega, l4, by omega, l6, by omega, l8, by omega,
    l10, by omega, l12⟩

theorem disposedAtMostOnce_Close_of_fresh (h : ChannelPeekHandler)
    (hf : linkHandlesFresh h) : linkHandlesDisposedAtMostOnce h.Close := by
  obtain ⟨l1, l2, l3, l4, l5, l6, l7, l8, l9, l10, l11, l12⟩ := hf
  unfold ChannelPeekHandler.Close
  split
  · exact ⟨by simp [closeHook, Meter.Dispose, l1], by simpa [closeHook, Meter.Dispose] using l2,
      by simp [closeHook, Meter.Dispose, l3], by simpa [closeHook, Meter.Dispose] using l4,
      by simp [closeHook, Histogram.Dispose, l5], by simpa [closeHook, Histogram.Dispose] using l6,
      by simp [closeHook, Meter.Dispose, l7], by simpa [closeHook, Meter.Dispose] using l8,
      by simp [closeHook, Meter.Dispose, l9], by simpa [closeHook, Meter.Dispose] using l10,
      by simp [closeHook, Histogram.Dispose, l11], by simpa [closeHook, Histogram.Dispose] using l12⟩
  · exact disposedAtMostOnce_of_fresh h ⟨l1, l2, l3, l4, l5, l6, l7, l8, l9, l10, l11, l12⟩

theorem runChannel_append (unm : Unmarshall) (a b : List ChanEvent) :
    ∀ h : ChannelPeekHandler,
      runChannel unm h (a ++ b) = runChannel unm (runChannel unm h a) b := by
  induction a with
  | nil => exact fun h => rfl
  | cons ev rest ih =>
      intro h
      cases ev with
      | rx msg now => exact ih _
      | tx msg now => exact ih _
      | close => exact ih _

/-! ## Fold lemmas for meter totals over message sequences -/

theorem foldRx_totals (unm : Unmarshall) (msgs : List (Message × Nat)) :
    ∀ h0 : ChannelPeekHandler,
      ((msgs.foldl (fun h mt => h.Rx unm mt.2 mt.1) h0).linkRxBytesMeter.total
          = h0.linkRxBytesMeter.total
            + (msgs.map fun mt => ((mt.1.body.length : Int))).sum)
      ∧ ((msgs.foldl (fun h mt => h.Rx unm mt.2 mt.1) h0).linkRxMsgMeter.total
          = h0.linkRxMsgMeter.total + (msgs.length : Int))
      ∧ ((msgs.foldl (fun h mt => h.Rx unm mt.2 mt.1) h0).appRxBytesMeter.total
          = h0.appRxBytesMeter.total
            + (msgs.map fun mt => ((mt.1.body.length : Int))).sum)
      ∧ ((msgs.foldl (fun h mt => h.Rx unm mt.2 mt.1) h0).appRxMsgMeter.total
          = h0.appRxMsgMeter.total + (msgs.length : Int)) := by
  induction msgs with
  | nil => intro h0; simp
  | cons mt rest ih =>
      intro h0
      obtain ⟨i1, i2, i3, i4⟩ := ih (h0.Rx unm mt.2 mt.1)
      obtain ⟨e1, e2, e3, e4, e5, _⟩ := chanRx_link_fields h0 unm mt.2 mt.1
      simp only [List.foldl_cons, List.map_cons, List.sum_cons, List.length_cons]
      refine ⟨?_, ?_, ?_, ?_⟩
      · rw [i1, e1, Meter.total_Mark]; ring
      · rw [i2, e2, Meter.total_Mark]; push_cast; ring
      · rw [i3, e4, Meter.total_Mark]; ring
      · rw [i4, e5, Meter.total_Mark]; push_cast; ring

theorem foldTx_totals (unm : Unmarshall) (msgs : List (Message × Nat)) :
    ∀ h0 : ChannelPeekHandler,
      ((msgs.foldl (fun h mt => h.Tx unm mt.2 mt.1) h0).linkTxBytesMeter.total
          = h0.linkTxBytesMeter.total
            + (msgs.map fun mt => ((mt.1.body.length : Int))).sum)
      ∧ ((msgs.foldl (fun h mt => h.Tx unm mt.2 mt.1) h0).linkTxMsgMeter.total
          = h0.linkTxMsgMeter.total + (msgs.length : Int))
      ∧ ((msgs.foldl (fun h mt => h.Tx unm mt.2 mt.1) h0).appTxBytesMeter.total
          = h0.appTxBytesMeter.total
            + (msgs.map fun mt => ((mt.1.body.length : Int))).sum)
      ∧ ((msgs.foldl (fun h mt => h.Tx unm mt.2 mt.1) h0).appTxMsgMeter.total
          = h0.appTxMsgMeter.total + (msgs.length : Int)) := by
  induction msgs with
  | nil => intro h0; simp
  | cons mt rest ih =>
      intro h0
      obtain ⟨i1, i2, i3, i4⟩ := ih (h0.Tx unm mt.2 mt.1)
      obtain ⟨e1, e2, e3, e4, e5, _⟩ := chanTx_link_fields h0 unm mt.2 mt.1
      simp only [List.foldl_cons, List.map_cons, List.sum_cons, List.length_cons]
      refine ⟨?_, ?_, ?_, ?_⟩
      · rw [i1, e1, Meter.total_Mark]; ring
      · rw [i2, e2, Meter.total_Mark]; push_cast; ring
      · rw [i3, e4, Meter.total_Mark]; ring
      · rw [i4, e5, Meter.total_Mark]; push_cast; ring

theorem isLowerDotted_append (a b : String) :
    isLowerDotted (a ++ b) = (isLowerDotted a && isLowerDotted b) := by
  simp [isLowerDotted, String.data_append, List.all_append]

/-! ## Claims -/

/-- Claim C1: processing any sequence of N inbound messages with body sizes
s1..sN through the channel handler's `Rx` marks the link-scoped rx
byte-meter by a total of s1+...+sN and the rx message-meter by N, and the
application-wide rx byte-meter and message-meter receive identical totals;
symmetrically for `Tx` with the tx-direction handles.  Each message carries
its own call-time timestamp. -/
theorem C1_meter_totals (unm : Unmarshall) (h0 : ChannelPeekHandler)
    (msgs : List (Message × Nat)) :
    (((msgs.foldl (fun h mt => h.Rx unm mt.2 mt.1) h0).linkRxBytesMeter.total
          = h0.linkRxBytesMeter.total
            + (msgs.map fun mt => ((mt.1.body.length : Int))).sum)
      ∧ ((msgs.foldl (fun h mt => h.Rx unm mt.2 mt.1) h0).linkRxMsgMeter.total
          = h0.linkRxMsgMeter.total + (msgs.length : Int))
      ∧ ((msgs.foldl (fun h mt => h.Rx unm mt.2 mt.1) h0).appRxBytesMeter.total
          = h0.appRxBytesMeter.total
            + (msgs.map fun mt => ((mt.1.body.length : Int))).sum)
      ∧ ((msgs.foldl (fun h mt => h.Rx unm mt.2 mt.1) h0).appRxMsgMeter.total
          = h0.appRxMsgMeter.total + (msgs.length : Int)))
    ∧ (((msgs.foldl (fun h mt => h.Tx unm mt.2 mt.1) h0).linkTxBytesMeter.total
          = h0.linkTxBytesMeter.total
            + (msgs.map fun mt => ((mt.1.body.length : Int))).sum)
      ∧ ((msgs.foldl (fun h mt => h.Tx unm mt.2 mt.1) h0).linkTxMsgMeter.total
          = h0.linkTxMsgMeter.total + (msgs.length : Int))
      ∧ ((msgs.foldl (fun h mt => h.Tx unm mt.2 mt.1) h0).appTxBytesMeter.total
          = h0.appTxBytesMeter.total
            + (msgs.map fun mt => ((mt.1.body.length : Int))).sum)
      ∧ ((msgs.foldl (fun h mt => h.Tx unm mt.2 mt.1) h0).appTxMsgMeter.total
          = h0.appTxMsgMeter.total + (msgs.length : Int))) :=
  ⟨foldRx_totals unm msgs h0, foldTx_totals unm msgs h0⟩

/-- Claim C2: the session tap classifies a flow by its originator only — an
initiator-originated flow updates exactly the ingress-class handles of the
event's physical direction (usage counter, message-meter, byte-meter,
size-histogram) and touches no egress handle, and any other originator
updates exactly the egress-class handles; the whole-record equalities state
that every other field is untouched. -/
theorem C2_classification (handler : XgressPeekHandler) (now1 now2 : Nat)
    (x : Xgress) (p q : Payload) :
    (x.originator = Originator.Initiator →
      handler.Rx now1 x p = { handler with
        ingressRxUsageCounter :=
          handler.ingressRxUsageCounter.Update x.sessionToken now1 p.data.length
        ingressRxMsgMeter := handler.ingressRxMsgMeter.Mark 1
        ingressRxBytesMeter := handler.ingressRxBytesMeter.Mark p.data.length
        ingressRxMsgSizeHistogram :=
          handler.ingressRxMsgSizeHistogram.Update p.data.length }
      ∧ handler.Tx now2 x q = { handler with
        ingressTxUsageCounter :=
          handler.ingressTxUsageCounter.Update x.sessionToken now2 q.data.length
        ingressTxMsgMeter := handler.ingressTxMsgMeter.Mark 1
        ingressTxBytesMeter := handler.ingressTxBytesMeter.Mark q.data.length
        ingressTxMsgSizeHistogram :=
          handler.ingressTxMsgSizeHistogram.Update q.data.length })
    ∧ (x.originator ≠ Originator.Initiator →
      handler.Rx now1 x p = { handler with
        egressRxUsageCounter :=
          handler.egressRxUsageCounter.Update x.sessionToken now1 p.data.length
        egressRxMsgMeter := handler.egressRxMsgMeter.Mark 1
        egressRxBytesMeter := handler.egressRxBytesMeter.Mark p.data.length
        egressRxMsgSizeHistogram :=
          handler.egressRxMsgSizeHistogram.Update p.data.length }
      ∧ handler.Tx now2 x q = { handler with
        egressTxUsageCounter :=
          handler.egressTxUsageCounter.Update x.sessionToken now2 q.data.length
        egressTxMsgMeter := handler.egressTxMsgMeter.Mark 1
        egressTxBytesMeter := handler.egressTxBytesMeter.Mark q.data.length
        egressTxMsgSizeHistogram :=
          handler.egressTxMsgSizeHistogram.Update q.data.length }) :=
  ⟨fun ho => ⟨xgressRx_eq_initiator handler now1 x p ho,
      xgressTx_eq_initiator handler now2 x q ho⟩,
   fun ho => ⟨xgressRx_eq_acceptor handler now1 x p ho,
      xgressTx_eq_acceptor handler now2 x q ho⟩⟩

/-- Concrete instance of C2 at an initiator-originated flow. -/
theorem C2_classification_witness :
    ((Xgress.mk Originator.Initiator "s").originator = Originator.Initiator)
    ∧ ((NewXgressPeekHandler Registry.empty).1.Rx 1
          (Xgress.mk Originator.Initiator "s") (Payload.mk "p" [7, 7])
        = { (NewXgressPeekHandler Registry.empty).1 with
            ingressRxUsageCounter :=
              (NewXgressPeekHandler Registry.empty).1.ingressRxUsageCounter.Update
                (Xgress.mk Originator.Initiator "s").sessionToken 1
                (Payload.mk "p" [7, 7]).data.length
            ingressRxMsgMeter :=
              (NewXgressPeekHandler Registry.empty).1.ingressRxMsgMeter.Mark 1
            ingressRxBytesMeter :=
              (NewXgressPeekHandler Registry.empty).1.ingressRxBytesMeter.Mark
                (Payload.mk "p" [7, 7]).data.length
            ingressRxMsgSizeHistogram :=
              (NewXgressPeekHandler Registry.empty).1.ingressRxMsgSizeHistogram.Update
                (Payload.mk "p" [7, 7]).data.length }
      ∧ (NewXgressPeekHandler Registry.empty).1.Tx 2
          (Xgress.mk Originator.Initiator "s") (Payload.mk "q" [9])
        = { (NewXgressPeekHandler Registry.empty).1 with
            ingressTxUsageCounter :=
              (NewXgressPeekHandler Registry.empty).1.ingressTxUsageCounter.Update
                (Xgress.mk Originator.Initiator "s").sessionToken 2
                (Payload.mk "q" [9]).data.length
            ingressTxMsgMeter :=
              (NewXgressPeekHandler Registry.empty).1.ingressTxMsgMeter.Mark 1
            ingressTxBytesMeter :=
              (NewXgressPeekHandler Registry.empty).1.ingressTxBytesMeter.Mark
                (Payload.mk "q" [9]).data.length
            ingressTxMsgSizeHistogram :=
              (NewXgressPeekHandler Registry.empty).1.ingressTxMsgSizeHistogram.Update
                (Payload.mk "q" [9]).data.length }) :=
  ⟨rfl, (C2_classification (NewXgressPeekHandler Registry.empty).1 1 2
      (Xgress.mk Originator.Initiator "s") (Payload.mk "p" [7, 7])
      (Payload.mk "q" [9])).1 rfl⟩

/-- Claim C3: a session-data frame whose body fails to decode leaves both
usage interval-counters (and every other field not listed) unchanged, still
updates the link and app byte-meter, message-meter and size-histogram by the
raw message size, and appends the failure to the error log; `Rx` and `Tx`
are total functions, so no error is propagated.  Stated as whole-record
equalities for both directions. -/
theorem C3_decode_failure (h : ChannelPeekHandler) (unm : Unmarshall)
    (now1 now2 : Nat) (msg : Message) (e : String)
    (hct : msg.contentType = ContentTypePayloadType)
    (herr : unm msg = Except.error e) :
    h.Rx unm now1 msg = { h with
      linkRxBytesMeter := h.linkRxBytesMeter.Mark msg.body.length
      linkRxMsgMeter := h.linkRxMsgMeter.Mark 1
      linkRxMsgSizeHistogram := h.linkRxMsgSizeHistogram.Update msg.body.length
      appRxBytesMeter := h.appRxBytesMeter.Mark msg.body.length
      appRxMsgMeter := h.appRxMsgMeter.Mark 1
      appRxMsgSizeHistogram := h.appRxMsgSizeHistogram.Update msg.body.length
      errorLog := h.errorLog ++ ["Failed to unmarshal payload. Error: " ++ e] }
    ∧ h.Tx unm now2 msg = { h with
      linkTxBytesMeter := h.linkTxBytesMeter.Mark msg.body.length
      linkTxMsgMeter := h.linkTxMsgMeter.Mark 1
      linkTxMsgSizeHistogram := h.linkTxMsgSizeHistogram.Update msg.body.length
      appTxBytesMeter := h.appTxBytesMeter.Mark msg.body.length
      appTxMsgMeter := h.appTxMsgMeter.Mark 1
      appTxMsgSizeHistogram := h.appTxMsgSizeHistogram.Update msg.body.length
      errorLog := h.errorLog ++ ["Failed to unmarshal payload. Error: " ++ e] } :=
  ⟨chanRx_eq_of_error h unm now1 msg e hct herr,
   chanTx_eq_of_error h unm now2 msg e hct herr⟩

/-- Concrete instance of C3 on a malformed session-data frame. -/
theorem C3_decode_failure_witness :
    (msgPayload.contentType = ContentTypePayloadType)
    ∧ (unmFail msgPayload = Except.error "bad")
    ∧ ((NewChannelPeekHandler "l1" Registry.empty).1.Rx unmFail 3 msgPayload
        = { (NewChannelPeekHandler "l1" Registry.empty).1 with
            linkRxBytesMeter :=
              (NewChannelPeekHandler "l1" Registry.empty).1.linkRxBytesMeter.Mark
                msgPayload.body.length
            linkRxMsgMeter :=
              (NewChannelPeekHandler "l1" Registry.empty).1.linkRxMsgMeter.Mark 1
            linkRxMsgSizeHistogram :=
              (NewChannelPeekHandler "l1" Registry.empty).1.linkRxMsgSizeHistogram.Update
                msgPayload.body.length
            appRxBytesMeter :=
              (NewChannelPeekHandler "l1" Registry.empty).1.appRxBytesMeter.Mark
                msgPayload.body.length
            appRxMsgMeter :=
              (NewChannelPeekHandler "l1" Registry.empty).1.appRxMsgMeter.Mark 1
            appRxMsgSizeHistogram :=
              (NewChannelPeekHandler "l1" Registry.empty).1.appRxMsgSizeHistogram.Update
                msgPayload.body.length
            errorLog :=
              (NewChannelPeekHandler "l1" Registry.empty).1.errorLog ++
                ["Failed to unmarshal payload. Error: " ++ "bad"] }
      ∧ (NewChannelPeekHandler "l1" Registry.empty).1.Tx unmFail 4 msgPayload
        = { (NewChannelPeekHandler "l1" Registry.empty).1 with
            linkTxBytesMeter :=
              (NewChannelPeekHandler "l1" Registry.empty).1.linkTxBytesMeter.Mark
                msgPayload.body.length
            linkTxMsgMeter :=
              (NewChannelPeekHandler "l1" Registry.empty).1.linkTxMsgMeter.Mark 1
            linkTxMsgSizeHistogram :=
              (NewChannelPeekHandler "l1" Registry.empty).1.linkTxMsgSizeHistogram.Update
                msgPayload.body.length
            appTxBytesMeter :=
              (NewChannelPeekHandler "l1" Registry.empty).1.appTxBytesMeter.Mark
                msgPayload.body.length
            appTxMsgMeter :=
              (NewChannelPeekHandler "l1" Registry.empty).1.appTxMsgMeter.Mark 1
            appTxMsgSizeHistogram :=
              (NewChannelPeekHandler "l1" Registry.empty).1.appTxMsgSizeHistogram.Update
                msgPayload.body.length
            errorLog :=
              (NewChannelPeekHandler "l1" Registry.empty).1.errorLog ++
                ["Failed to unmarshal payload. Error: " ++ "bad"] }) :=
  ⟨by decide, rfl,
    C3_decode_failure (NewChannelPeekHandler "l1" Registry.empty).1 unmFail
      3 4 msgPayload "bad" (by decide) rfl⟩

/-- Claim C4: a session-data frame that decodes to payload `p` causes
exactly one inbound usage-counter update, keyed by `p`'s session token with
the decoded data length and the call-time timestamp, and no outbound usage
update; a message of any other content-type causes no usage-counter update
at all. -/
theorem C4_usage_accounting (h : ChannelPeekHandler) (unm : Unmarshall)
    (now : Nat) (msg : Message) :
    (∀ p : Payload, msg.contentType = ContentTypePayloadType →
      unm msg = Except.ok p →
        (h.Rx unm now msg).usageRxCounter.records
            = h.usageRxCounter.records ++ [⟨p.sessionId, now, p.data.length⟩]
        ∧ (h.Rx unm now msg).usageTxCounter = h.usageTxCounter)
    ∧ (msg.contentType ≠ ContentTypePayloadType →
        (h.Rx unm now msg).usageRxCounter = h.usageRxCounter
        ∧ (h.Rx unm now msg).usageTxCounter = h.usageTxCounter) := by
  constructor
  · intro p hct hok
    rw [chanRx_eq_of_ok h unm now msg p hct hok]
    exact ⟨rfl, rfl⟩
  · intro hct
    rw [chanRx_eq_of_other h unm now msg hct]
    exact ⟨rfl, rfl⟩

/-- Concrete instance of C4: a valid session-data frame updates the inbound
usage counter once; a non-payload message updates no usage counter. -/
theorem C4_usage_accounting_witness :
    (msgPayload.contentType = ContentTypePayloadType)
    ∧ (unmS1 msgPayload = Except.ok (Payload.mk "S1" []))
    ∧ (((NewChannelPeekHandler "l1" Registry.empty).1.Rx unmS1 9
          msgPayload).usageRxCounter.records
        = (NewChannelPeekHandler "l1" Registry.empty).1.usageRxCounter.records
            ++ [⟨(Payload.mk "S1" []).sessionId, 9, (Payload.mk "S1" []).data.length⟩]
      ∧ ((NewChannelPeekHandler "l1" Registry.empty).1.Rx unmS1 9
          msgPayload).usageTxCounter
        = (NewChannelPeekHandler "l1" Registry.empty).1.usageTxCounter)
    ∧ (msgOther.contentType ≠ ContentTypePayloadType)
    ∧ (((NewChannelPeekHandler "l1" Registry.empty).1.Rx unmS1 9
          msgOther).usageRxCounter
        = (NewChannelPeekHandler "l1" Registry.empty).1.usageRxCounter
      ∧ ((NewChannelPeekHandler "l1" Registry.empty).1.Rx unmS1 9
          msgOther).usageTxCounter
        = (NewChannelPeekHandler "l1" Registry.empty).1.usageTxCounter) :=
  ⟨by decide, rfl,
    (C4_usage_accounting (NewChannelPeekHandler "l1" Registry.empty).1 unmS1
      9 msgPayload).1 (Payload.mk "S1" []) (by decide) rfl,
    by decide,
    (C4_usage_accounting (NewChannelPeekHandler "l1" Registry.empty).1 unmS1
      9 msgOther).2 (by decide)⟩

/-- Claim C5: `Close` on a handler with the close hook installed disposes
exactly the six link-scoped handles; the whole-record equality shows that
the six application-wide handles, the two usage interval-counters and every
other field are untouched. -/
theorem C5_close_disposes_links (h : ChannelPeekHandler)
    (hc : h.hasCloseHook = true) :
    h.Close = { h with
      linkTxBytesMeter := h.linkTxBytesMeter.Dispose
      linkTxMsgMeter := h.linkTxMsgMeter.Dispose
      linkTxMsgSizeHistogram := h.linkTxMsgSizeHistogram.Dispose
      linkRxBytesMeter := h.linkRxBytesMeter.Dispose
      linkRxMsgMeter := h.linkRxMsgMeter.Dispose
      linkRxMsgSizeHistogram := h.linkRxMsgSizeHistogram.Dispose } := by
  rw [chanClose_eq_of_hook h hc]; rfl

/-- Concrete instance of C5 on a freshly constructed handler. -/
theorem C5_close_disposes_links_witness :
    ((NewChannelPeekHandler "l1" Registry.empty).1.hasCloseHook = true)
    ∧ ((NewChannelPeekHandler "l1" Registry.empty).1.Close
        = { (NewChannelPeekHandler "l1" Registry.empty).1 with
            linkTxBytesMeter :=
              (NewChannelPeekHandler "l1" Registry.empty).1.linkTxBytesMeter.Dispose
            linkTxMsgMeter :=
              (NewChannelPeekHandler "l1" Registry.empty).1.linkTxMsgMeter.Dispose
            linkTxMsgSizeHistogram :=
              (NewChannelPeekHandler "l1" Registry.empty).1.linkTxMsgSizeHistogram.Dispose
            linkRxBytesMeter :=
              (NewChannelPeekHandler "l1" Registry.empty).1.linkRxBytesMeter.Dispose
            linkRxMsgMeter :=
              (NewChannelPeekHandler "l1" Registry.empty).1.linkRxMsgMeter.Dispose
            linkRxMsgSizeHistogram :=
              (NewChannelPeekHandler "l1" Registry.empty).1.linkRxMsgSizeHistogram.Dispose }) :=
  ⟨rfl, C5_close_disposes_links (NewChannelPeekHandler "l1" Registry.empty).1 rfl⟩

/-- Claim C9: the channel handler's `Connect` and the xgress handler's
`Close` perform no metric update and no disposal: each returns the handler
exactly as it was. -/
theorem C9_noop_hooks (h : ChannelPeekHandler) (addr : String)
    (g : XgressPeekHandler) (x : Xgress) :
    h.Connect addr = h ∧ g.Close x = g :=
  ⟨rfl, rfl⟩

/-- Claim C6 as stated fails on the code, at concrete inputs: a second
`Close` call runs the close hook again, so the link tx byte-meter is
disposed twice; and an `Rx` after `Close` marks the already-disposed link
rx byte-meter. -/
theorem C6_counterexample :
    ((runChannel unmFail (NewChannelPeekHandler "l1" Registry.empty).1
        [ChanEvent.close, ChanEvent.close]).linkTxBytesMeter.disposeCount = 2)
    ∧ ((runChannel unmFail (NewChannelPeekHandler "l1" Registry.empty).1
        [ChanEvent.close, ChanEvent.rx msgOther 0]).linkRxBytesMeter.markedAfterDispose
          = true) :=
  ⟨by decide, by decide⟩

/-- Claim C6 amended: over any invocation sequence on a freshly constructed
channel handler that contains at most one `Close`, occurring (if at all) as
the last event, every link-scoped handle is disposed at most once and no
`Rx`/`Tx` updates a link-scoped handle after it has been disposed. -/
theorem C6_dispose_once (unm : Unmarshall) (linkId : String) (r : Registry)
    (evs pre : List ChanEvent) (hnc : ChanEvent.close ∉ pre)
    (hsh : evs = pre ∨ evs = pre ++ [ChanEvent.close]) :
    linkHandlesDisposedAtMostOnce
      (runChannel unm (NewChannelPeekHandler linkId r).1 evs) := by
  have hf := linkHandlesFresh_runChannel unm pre hnc _
    (linkHandlesFresh_new linkId r)
  cases hsh with
  | inl he => rw [he]; exact disposedAtMostOnce_of_fresh _ hf
  | inr he =>
      rw [he, runChannel_append]
      exact disposedAtMostOnce_Close_of_fresh _ hf

/-- Concrete instance of the amended C6: one `Rx` then a single final
`Close`. -/
theorem C6_dispose_once_witness :
    (ChanEvent.close ∉ [ChanEvent.rx msgOther 0])
    ∧ linkHandlesDisposedAtMostOnce
        (runChannel unmFail (NewChannelPeekHandler "l1" Registry.empty).1
          ([ChanEvent.rx msgOther 0] ++ [ChanEvent.close])) :=
  ⟨by decide,
    C6_dispose_once unmFail "l1" Registry.empty _ _ (by decide) (Or.inr rfl)⟩

/-- Claim C7: from a fresh transport tap for `"L1"`, an `Rx` of a 100-byte
non-payload message followed by a `Tx` of a 50-byte session-data message
decoding to session `"S1"` with 40 data bytes yields link rx byte-meter
total 100, link tx byte-meter total 50, exactly one outbound usage record
`("S1", 40)` timestamped at the `Tx` call, and no inbound usage record. -/
theorem C7_scenario (unm : Unmarshall) (r : Registry) (now1 now2 : Nat)
    (msg1 msg2 : Message) (p : Payload)
    (h1len : msg1.body.length = 100)
    (h1ct : msg1.contentType ≠ ContentTypePayloadType)
    (h2len : msg2.body.length = 50)
    (h2ct : msg2.contentType = ContentTypePayloadType)
    (h2dec : unm msg2 = Except.ok p)
    (hsid : p.sessionId = "S1") (hdlen : p.data.length = 40) :
    ((((NewChannelPeekHandler "L1" r).1.Rx unm now1 msg1).Tx unm now2
        msg2).linkRxBytesMeter.total = 100)
    ∧ ((((NewChannelPeekHandler "L1" r).1.Rx unm now1 msg1).Tx unm now2
        msg2).linkTxBytesMeter.total = 50)
    ∧ ((((NewChannelPeekHandler "L1" r).1.Rx unm now1 msg1).Tx unm now2
        msg2).usageTxCounter.records = [⟨"S1", now2, 40⟩])
    ∧ ((((NewChannelPeekHandler "L1" r).1.Rx unm now1 msg1).Tx unm now2
        msg2).usageRxCounter.records = []) := by
  rw [chanRx_eq_of_other (NewChannelPeekHandler "L1" r).1 unm now1 msg1 h1ct]
  rw [chanTx_eq_of_ok _ unm now2 msg2 p h2ct h2dec]
  rw [NewChannelPeekHandler_fst]
  refine ⟨?_, ?_, ?_, ?_⟩ <;>
    simp [h1len, h2len, hsid, hdlen, Meter.Mark, IntervalCounter.Update]

/-- Concrete instance of C7. -/
theorem C7_scenario_witness :
    (msg100.body.length = 100)
    ∧ (msg100.contentType ≠ ContentTypePayloadType)
    ∧ (msg50.body.length = 50)
    ∧ (msg50.contentType = ContentTypePayloadType)
    ∧ (unmS1 msg50 = Except.ok payload40)
    ∧ (payload40.sessionId = "S1")
    ∧ (payload40.data.length = 40)
    ∧ ((((NewChannelPeekHandler "L1" Registry.empty).1.Rx unmS1 11 msg100).Tx
          unmS1 12 msg50).linkRxBytesMeter.total = 100)
    ∧ ((((NewChannelPeekHandler "L1" Registry.empty).1.Rx unmS1 11 msg100).Tx
          unmS1 12 msg50).linkTxBytesMeter.total = 50)
    ∧ ((((NewChannelPeekHandler "L1" Registry.empty).1.Rx unmS1 11 msg100).Tx
          unmS1 12 msg50).usageTxCounter.records = [⟨"S1", 12, 40⟩])
    ∧ ((((NewChannelPeekHandler "L1" Registry.empty).1.Rx unmS1 11 msg100).Tx
          unmS1 12 msg50).usageRxCounter.records = []) := by
  have hdec : unmS1 msg50 = Except.ok payload40 := by
    simp [unmS1, msg50, payload40]
  refine ⟨by decide, by decide, by decide, by decide, hdec, rfl, by decide,
    ?_, ?_, ?_, ?_⟩ <;>
  · obtain ⟨c1, c2, c3, c4⟩ := C7_scenario unmS1 Registry.empty 11 12 msg100
      msg50 payload40 (by decide) (by decide) (by decide) (by decide) hdec
      rfl (by decide)
    first
    | exact c1
    | exact c2
    | exact c3
    | exact c4

/-- Claim C8: from a fresh session tap, an `Rx` then a `Tx` on an
initiator-originated flow with session token `"S2"` and payloads of 10 and
5 bytes yields ingress-rx byte-meter total 10, ingress-tx byte-meter total
5, all egress-class handles unchanged, and usage records `("S2", 10)` under
ingress-rx and `("S2", 5)` under ingress-tx. -/
theorem C8_scenario (r : Registry) (now1 now2 : Nat) (p1 p2 : Payload)
    (hp1 : p1.data.length = 10) (hp2 : p2.data.length = 5) :
    ((((NewXgressPeekHandler r).1.Rx now1 (Xgress.mk Originator.Initiator "S2")
        p1).Tx now2 (Xgress.mk Originator.Initiator "S2")
        p2).ingressRxBytesMeter.total = 10)
    ∧ ((((NewXgressPeekHandler r).1.Rx now1 (Xgress.mk Originator.Initiator "S2")
        p1).Tx now2 (Xgress.mk Originator.Initiator "S2")
        p2).ingressTxBytesMeter.total = 5)
    ∧ ((((NewXgressPeekHandler r).1.Rx now1 (Xgress.mk Originator.Initiator "S2")
        p1).Tx now2 (Xgress.mk Originator.Initiator "S2")
        p2).egressTxBytesMeter = (NewXgressPeekHandler r).1.egressTxBytesMeter)
    ∧ ((((NewXgressPeekHandler r).1.Rx now1 (Xgress.mk Originator.Initiator "S2")
        p1).Tx now2 (Xgress.mk Originator.Initiator "S2")
        p2).egressTxMsgMeter = (NewXgressPeekHandler r).1.egressTxMsgMeter)
    ∧ ((((NewXgressPeekHandler r).1.Rx now1 (Xgress.mk Originator.Initiator "S2")
        p1).Tx now2 (Xgress.mk Originator.Initiator "S2")
        p2).egressRxBytesMeter = (NewXgressPeekHandler r).1.egressRxBytesMeter)
    ∧ ((((NewXgressPeekHandler r).1.Rx now1 (Xgress.mk Originator.Initiator "S2")
        p1).Tx now2 (Xgress.mk Originator.Initiator "S2")
        p2).egressRxMsgMeter = (NewXgressPeekHandler r).1.egressRxMsgMeter)
    ∧ ((((NewXgressPeekHandler r).1.Rx now1 (Xgress.mk Originator.Initiator "S2")
        p1).Tx now2 (Xgress.mk Originator.Initiator "S2")
        p2).egressTxMsgSizeHistogram
          = (NewXgressPeekHandler r).1.egressTxMsgSizeHistogram)
    ∧ ((((NewXgressPeekHandler r).1.Rx now1 (Xgress.mk Originator.Initiator "S2")
        p1).Tx now2 (Xgress.mk Originator.Initiator "S2")
        p2).egressRxMsgSizeHistogram
          = (NewXgressPeekHandler r).1.egressRxMsgSizeHistogram)
    ∧ ((((NewXgressPeekHandler r).1.Rx now1 (Xgress.mk Originator.Initiator "S2")
        p1).Tx now2 (Xgress.mk Originator.Initiator "S2")
        p2).egressRxUsageCounter = (NewXgressPeekHandler r).1.egressRxUsageCounter)
    ∧ ((((NewXgressPeekHandler r).1.Rx now1 (Xgress.mk Originator.Initiator "S2")
        p1).Tx now2 (Xgress.mk Originator.Initiator "S2")
        p2).egressTxUsageCounter = (NewXgressPeekHandler r).1.egressTxUsageCounter)
    ∧ ((((NewXgressPeekHandler r).1.Rx now1 (Xgress.mk Originator.Initiator "S2")
        p1).Tx now2 (Xgress.mk Originator.Initiator "S2")
        p2).ingressRxUsageCounter.records = [⟨"S2", now1, 10⟩])
    ∧ ((((NewXgressPeekHandler r).1.Rx now1 (Xgress.mk Originator.Initiator "S2")
        p1).Tx now2 (Xgress.mk Originator.Initiator "S2")
        p2).ingressTxUsageCounter.records = [⟨"S2", now2, 5⟩]) := by
  rw [xgressRx_eq_initiator (NewXgressPeekHandler r).1 now1
    (Xgress.mk Originator.Initiator "S2") p1 rfl]
  rw [xgressTx_eq_initiator _ now2 (Xgress.mk Originator.Initiator "S2") p2 rfl]
  rw [NewXgressPeekHandler_fst]
  refine ⟨?_, ?_, ?_, ?_, ?_, ?_, ?_, ?_, ?_, ?_, ?_, ?_⟩ <;>
    simp [hp1, hp2, Meter.Mark, IntervalCounter.Update]

/-- Concrete instance of C8. -/
theorem C8_scenario_witness :
    ((Payload.mk "a" (List.replicate 10 3)).data.length = 10)
    ∧ ((Payload.mk "b" (List.replicate 5 4)).data.length = 5)
    ∧ ((((NewXgressPeekHandler Registry.empty).1.Rx 21
          (Xgress.mk Originator.Initiator "S2")
          (Payload.mk "a" (List.replicate 10 3))).Tx 22
          (Xgress.mk Originator.Initiator "S2")
          (Payload.mk "b" (List.replicate 5 4))).ingressRxBytesMeter.total = 10)
    ∧ ((((NewXgressPeekHandler Registry.empty).1.Rx 21
          (Xgress.mk Originator.Initiator "S2")
          (Payload.mk "a" (List.replicate 10 3))).Tx 22
          (Xgress.mk Originator.Initiator "S2")
          (Payload.mk "b" (List.replicate 5 4))).ingressTxBytesMeter.total = 5)
    ∧ ((((NewXgressPeekHandler Registry.empty).1.Rx 21
          (Xgress.mk Originator.Initiator "S2")
          (Payload.mk "a" (List.replicate 10 3))).Tx 22
          (Xgress.mk Originator.Initiator "S2")
          (Payload.mk "b" (List.replicate 5 4))).ingressRxUsageCounter.records
        = [⟨"S2", 21, 10⟩])
    ∧ ((((NewXgressPeekHandler Registry.empty).1.Rx 21
          (Xgress.mk Originator.Initiator "S2")
          (Payload.mk "a" (List.replicate 10 3))).Tx 22
          (Xgress.mk Originator.Initiator "S2")
          (Payload.mk "b" (List.replicate 5 4))).ingressTxUsageCounter.records
        = [⟨"S2", 22, 5⟩]) := by
  obtain ⟨c1, c2, _, _, _, _, _, _, _, _, c11, c12⟩ :=
    C8_scenario Registry.empty 21 22 (Payload.mk "a" (List.replicate 10 3))
      (Payload.mk "b" (List.replicate 5 4)) (by decide) (by decide)
  exact ⟨by decide, by decide, c1, c2, c11, c12⟩

/-- Claim C10 as stated fails on the code at `linkId = "L1"`: the transport
constructor then requests the link tx byte-meter under
`"link.L1.tx.bytesrate"`, which is not an all-lowercase dotted name (and is
not the egress tx message-meter). -/
theorem C10_counterexample :
    ("link.L1.tx.bytesrate"
        ∈ (NewChannelPeekHandler "L1" Registry.empty).2.requests.map Request.name)
    ∧ (isLowerDotted "link.L1.tx.bytesrate" = false) :=
  ⟨by decide, by decide⟩

/-- Claim C10 amended: the session constructor requests exactly one handle
whose name is not an all-lowercase dotted string, namely the egress tx
message-meter under `"egress.tx.Msgrate"`; and every name requested by the
transport constructor is all-lowercase dotted whenever the `linkId` it
embeds is. -/
theorem C10_naming (linkId : String) (hl : isLowerDotted linkId = true) :
    (((NewXgressPeekHandler Registry.empty).2.requests.map Request.name).filter
        (fun n => !(isLowerDotted n)) = ["egress.tx.Msgrate"])
    ∧ (((NewChannelPeekHandler linkId Registry.empty).2.requests.map
          Request.name).all isLowerDotted = true) := by
  constructor
  · decide
  · rw [NewChannelPeekHandler_requests]
    simp [Registry.empty, isLowerDotted_append, hl]
    decide

/-- Concrete instance of the amended C10 at a lowercase link id. -/
theorem C10_naming_witness :
    (isLowerDotted "ab" = true)
    ∧ ((((NewXgressPeekHandler Registry.empty).2.requests.map
          Request.name).filter (fun n => !(isLowerDotted n))
        = ["egress.tx.Msgrate"])
      ∧ (((NewChannelPeekHandler "ab" Registry.empty).2.requests.map
            Request.name).all isLowerDotted = true)) :=
  ⟨by decide, C10_naming "ab" (by decide)⟩

end PeekMetrics
